import Mathlib

/-!
Verification development for the DOCYWAY_BOT repository (`bot.py`).

The repository is a Telegram document-generation bot.  Two areas carry the
spec's claims:

* the numeric path of the PDF generators (`generate_payroll_pdf`,
  `generate_bank_statement_pdf`, `generate_bill_pdf`, `generate_t4_pdf`),
  which parse a stored string into a number and derive deduction figures;
* the conversation state machine (`conv_handler`), which routes each incoming
  text message or callback query to the handler of the session's current
  state and writes form fields.

Python `float` arithmetic is modelled over `ℚ` (exact rationals); `round(x, 2)`
is modelled as rounding `100 * x` to the nearest integer (Mathlib's `round`,
half away from the floor on exact halves, whereas CPython uses half-even on
binary floats — no theorem below depends on an exact-half case).  Python
`float(str)` is modelled by `pyFloat` over the standard finite decimal
grammar; the non-finite literals (`inf`, `nan`) and underscore digit-group
separators accepted by CPython lie outside the rational model and are
treated as parse failures, and whitespace stripping covers the ASCII
whitespace characters.
-/

/-- Model of Python `round(x, 2)`: round to the nearest multiple of 1/100. -/
def round2 (x : ℚ) : ℚ := (round (100 * x) : ℤ) / 100

/-- A rational that is a whole number of cents. -/
def IsCent (q : ℚ) : Prop := ∃ n : ℤ, q = (n : ℚ) / 100

/-! ### Model of Python string normalization and `float()` parsing -/

/-- `matchPat pat cs` returns the remainder of `cs` after an initial
occurrence of `pat`, if `pat` occurs at the front. -/
def matchPat : List Char → List Char → Option (List Char)
  | [], cs => some cs
  | _ :: _, [] => none
  | p :: ps, c :: cs => if c = p then matchPat ps cs else none

/-- `startsW p s`: does string `s` begin with `p`?  Models both Python's
`str.startswith` and the implicitly anchored `^pattern` regexes used by the
conversation handler's `CallbackQueryHandler`s. -/
def startsW (p s : String) : Bool := (matchPat p.toList s.toList).isSome

/-- One fuelled pass of left-to-right, non-overlapping removal of `pat`
(the fuel is the length of the remaining text, consumed at least one unit
per step). -/
def removeAllGo (pat : List Char) : Nat → List Char → List Char
  | 0, cs => cs
  | _ + 1, [] => []
  | n + 1, c :: cs =>
    match matchPat pat (c :: cs) with
    | some rest => removeAllGo pat n rest
    | none => c :: removeAllGo pat n cs

/-- Model of Python `s.replace(pat, "")`: remove every occurrence of `pat`,
scanning left to right. -/
def removeAll (pat s : String) : String :=
  String.mk (removeAllGo pat.toList s.toList.length s.toList)

/-- Model of `s.replace(',', '').replace('$', '')` as applied to every
stored numeric string before `float()` in the PDF generators
(`bot.py` lines 418, 506, 569, 673-676). -/
def normalizeAmount (s : String) : String := removeAll "$" (removeAll "," s)

/-- Model of Python `str.strip()` (ASCII whitespace). -/
def pyStrip (s : String) : String :=
  String.mk ((((s.toList.dropWhile Char.isWhitespace).reverse).dropWhile
    Char.isWhitespace).reverse)

/-- Numeric value of a digit string (digits only). -/
def natOfDigits (cs : List Char) : Nat :=
  cs.foldl (fun n c => 10 * n + (c.toNat - '0'.toNat)) 0

/-- Parse the exponent part after `e`/`E`: optional sign then a nonempty
digit run consuming the rest of the input. -/
def parseExpPart (m : ℚ) (cs : List Char) : Option ℚ :=
  let (neg, cs2) : Bool × List Char :=
    match cs with
    | '+' :: r => (false, r)
    | '-' :: r => (true, r)
    | _ => (false, cs)
  let ds := cs2.takeWhile Char.isDigit
  let rest := cs2.dropWhile Char.isDigit
  if ds.isEmpty ∨ ¬ rest.isEmpty then none
  else if neg then some (m / 10 ^ natOfDigits ds) else some (m * 10 ^ natOfDigits ds)

/-- Parse an unsigned float literal: `digits`, `digits.digits?`, `.digits`,
each with an optional exponent, consuming the whole input. -/
def parseUnsignedFloat (cs : List Char) : Option ℚ :=
  let ip := cs.takeWhile Char.isDigit
  let r1 := cs.dropWhile Char.isDigit
  match r1 with
  | [] => if ip.isEmpty then none else some (natOfDigits ip)
  | '.' :: r2 =>
    let fp := r2.takeWhile Char.isDigit
    let r3 := r2.dropWhile Char.isDigit
    if ip.isEmpty ∧ fp.isEmpty then none
    else
      let m : ℚ := (natOfDigits ip : ℚ) + (natOfDigits fp : ℚ) / 10 ^ fp.length
      match r3 with
      | [] => some m
      | c :: r4 => if c = 'e' ∨ c = 'E' then parseExpPart m r4 else none
  | c :: r2 =>
    if (c = 'e' ∨ c = 'E') ∧ ¬ ip.isEmpty then parseExpPart (natOfDigits ip : ℚ) r2
    else none

/-- Model of Python `float(s)` on finite decimal literals: strip whitespace,
optional sign, then an unsigned float literal. `none` models `ValueError`. -/
def pyFloat (s : String) : Option ℚ :=
  let cs := (((s.toList.dropWhile Char.isWhitespace).reverse).dropWhile
    Char.isWhitespace).reverse
  match cs with
  | '+' :: r => parseUnsignedFloat r
  | '-' :: r => (parseUnsignedFloat r).map Neg.neg
  | _ => parseUnsignedFloat cs

/-- The numeric-parsing step shared by `generate_payroll_pdf`,
`generate_bank_statement_pdf` and `generate_bill_pdf`:
`try: v = float(s.replace(',','').replace('$','')) except: v = 0`. -/
def parseAmount (s : String) : ℚ := (pyFloat (normalizeAmount s)).getD 0

/-! ### Payroll figures (`generate_payroll_pdf`, bot.py lines 417-425) -/

/-- `cpp = round(gross * 0.0595, 2)`. -/
def payrollCpp (g : ℚ) : ℚ := round2 (g * (595 / 10000))

/-- `ei = round(gross * 0.0163, 2)`. -/
def payrollEi (g : ℚ) : ℚ := round2 (g * (163 / 10000))

/-- `tax = round(gross * 0.15, 2)`. -/
def payrollTax (g : ℚ) : ℚ := round2 (g * (15 / 100))

/-- `net = round(gross - cpp - ei - tax, 2)`. -/
def payrollNet (g : ℚ) : ℚ :=
  round2 (g - payrollCpp g - payrollEi g - payrollTax g)

/-- The five numeric figures of a payroll document, from the salary string:
gross, CPP, EI, income tax, net. -/
def payrollFigures (salary : String) : ℚ × ℚ × ℚ × ℚ × ℚ :=
  let g := parseAmount salary
  (g, payrollCpp g, payrollEi g, payrollTax g, payrollNet g)

/-! ### Bill figures (`generate_bill_pdf`, bot.py lines 568-574) -/

/-- `tax = round(amount * 0.15, 2)`. -/
def billTax (a : ℚ) : ℚ := round2 (a * (15 / 100))

/-- `total = round(amount + tax, 2)`. -/
def billTotal (a : ℚ) : ℚ := round2 (a + billTax a)

/-- The bill document's numeric figures from the amount string:
amount, tax, total. -/
def billFigures (amount : String) : ℚ × ℚ × ℚ :=
  let a := parseAmount amount
  (a, billTax a, billTotal a)

/-- The bank statement's balance figure (`generate_bank_statement_pdf`,
bot.py lines 505-508). -/
def bankBalanceShown (balance : String) : ℚ := parseAmount balance

/-! ### T4 figures (`generate_t4_pdf`, bot.py lines 672-678)

All four `float(...)` calls sit in one `try` block, so a failure on any of
them zeroes all four values; the optional boxes parse only when the stored
string is non-empty (Python truthiness of the string). -/

/-- The four T4 box amounts (income, CPP, EI, tax deducted). -/
def t4Amounts (inc cpp ei tax : String) : ℚ × ℚ × ℚ × ℚ :=
  match pyFloat (normalizeAmount inc) with
  | none => (0, 0, 0, 0)
  | some i =>
    match (if cpp = "" then some 0 else pyFloat (normalizeAmount cpp)) with
    | none => (0, 0, 0, 0)
    | some c =>
      match (if ei = "" then some 0 else pyFloat (normalizeAmount ei)) with
      | none => (0, 0, 0, 0)
      | some e =>
        match (if tax = "" then some 0 else pyFloat (normalizeAmount tax)) with
        | none => (0, 0, 0, 0)
        | some t => (i, c, e, t)

/-! ### Spec-modelled tax-engine definitions

The repository contains no bracket table, no annualization and no
frequency handling: `generate_payroll_pdf` applies fixed flat rates to the
per-period gross.  The following definitions are modelled from the spec to
state and settle the claims that compare the code with the spec's engine. -/

/-- Modelled from the spec: the progressive bracket walk of §4.2
(`computeBracketTax`).  A bracket is `(limit, rate)` with `none` as the
final `+infinity` limit.  Walk in order with accumulator `prev` starting
at 0: stop when `income ≤ prev`, else tax `min income limit - prev` at
`rate` and continue with `prev := limit`.  (After a `none` limit every
remaining bracket would contribute 0, so the walk returns there.)
No such bracket code exists in `src/`. -/
def computeBracketTax (income : ℚ) : List (Option ℚ × ℚ) → ℚ → ℚ
  | [], _ => 0
  | (lim, rate) :: rest, prev =>
    if income ≤ prev then 0
    else
      match lim with
      | some l => (min income l - prev) * rate + computeBracketTax income rest l
      | none => (income - prev) * rate

/-- Modelled from the spec (§3 Tax Bracket Table): finite limits strictly
increasing from 0, exactly the last limit is `+infinity` (`none`). -/
def wellFormedTableGo : ℚ → List (Option ℚ × ℚ) → Bool
  | _, [] => false
  | _, [(none, _)] => true
  | _, (none, _) :: _ :: _ => false
  | prev, (some l, _) :: rest => decide (prev < l) && wellFormedTableGo l rest

/-- A well-formed bracket table in the sense of the spec's data model. -/
def wellFormedTable (bs : List (Option ℚ × ℚ)) : Bool := wellFormedTableGo 0 bs

/-- A two-bracket configuration used to separate the bracket walk from the
code's flat rate: 0% up to 100, 100% above. -/
def demoBrackets : List (Option ℚ × ℚ) := [(some 100, 0), (none, 1)]

/-- The single-bracket table under which the code's flat 15% coincides with
the bracket walk. -/
def flatTable : List (Option ℚ × ℚ) := [((none : Option ℚ), (15 / 100 : ℚ))]

/-- Modelled from the spec (§4.2 Annualization): weekly ×52, biweekly ×26,
monthly ×12, any unrecognized frequency defaults to ×26.  No frequency
handling exists in `src/` (the collected `pay_period` is a free-text date
range never read by the numeric path). -/
def freqMultiplier (f : String) : ℚ :=
  if f = "weekly" then 52
  else if f = "biweekly" then 26
  else if f = "monthly" then 12
  else 26

/-- Modelled from the spec: per-period to annual. -/
def annualize (g : ℚ) (f : String) : ℚ := g * freqMultiplier f

/-- Modelled from the spec: annual back to per-period. -/
def deannualize (a : ℚ) (f : String) : ℚ := a / freqMultiplier f

/-! ### Payroll document elements (`generate_payroll_pdf`)

The rendered payroll PDF is modelled as the ordered list of its
data-bearing elements: text paragraphs, label/value rows, and money rows of
the earnings table (tagged with the column — `Earnings` or `Deductions` —
that carries the amount, following the `earnings_data` layout).  The
generation timestamp (`datetime.now()`) enters only the footer paragraph. -/

/-- The column of the earnings table that holds a money row's amount. -/
inductive PayCol
  | earn
  | ded
deriving DecidableEq

/-- A money row of the earnings table. -/
structure MoneyRow where
  label : String
  col : PayCol
  amt : ℚ
deriving DecidableEq

/-- A data-bearing element of the rendered payroll PDF. -/
inductive PdfElem
  | para (s : String)
  | textRow (label value : String)
  | row (r : MoneyRow)
deriving DecidableEq

/-- Extract the money figures of a document, in order. -/
def figuresList (es : List PdfElem) : List ℚ :=
  es.filterMap fun e =>
    match e with
    | .row r => some r.amt
    | _ => none

/-- The rows of the earnings table whose amount sits in the Deductions
column. -/
def dedRows (es : List PdfElem) : List PdfElem :=
  es.filter fun e =>
    match e with
    | .row ⟨_, PayCol.ded, _⟩ => true
    | _ => false

/-- The concrete payroll document: mirrors the `elements` list built by
`generate_payroll_pdf` (title, employer table, employee table, earnings
table, footer).  `now` is the `datetime.now().strftime(...)` string and
appears only in the footer paragraph. -/
def payrollElems (salary employer payPeriod province firstName lastName
    address unit city postalCode phone now : String) : List PdfElem :=
  let g := parseAmount salary
  [ .para "PAY STUB / TALON DE PAIE",
    .textRow "Employer / Employeur:" employer,
    .textRow "Pay Period / Periode:" payPeriod,
    .textRow "Province:" province,
    .textRow "Employee / Employe:" (firstName ++ " " ++ lastName),
    .textRow "Address / Adresse:"
      (if unit ≠ "" then address ++ ", " ++ unit else address),
    .textRow "City / Ville:" (city ++ ", " ++ postalCode),
    .textRow "Phone / Tel:" phone,
    .row ⟨"Gross Pay / Salaire brut", .earn, g⟩,
    .row ⟨"CPP/RPC", .ded, payrollCpp g⟩,
    .row ⟨"EI/AE", .ded, payrollEi g⟩,
    .row ⟨"Income Tax / Impot", .ded, payrollTax g⟩,
    .row ⟨"NET PAY / SALAIRE NET", .earn, payrollNet g⟩,
    .para ("Generated on " ++ now) ]

/-! ### The wizard state machine (`conv_handler`, bot.py lines 1477-1608)

States are the 42 conversation constants plus the implicit end state
(`ConversationHandler.END`).  The session's form (`FormData`) is modelled
as a map from field name to raw string; the identity metadata
(`user_id`, `username`) is outside the string-field map.  An update is
either a text message (`msg`) or a callback query (`cb`); the transport's
`filters.TEXT & ~filters.COMMAND` exclusion of commands is modelled by
`isCmd`, the `/cancel` fallback by the top of `step`, and each state's
registered handlers by `msgTarget`/`msgNext`/`cbStep`.  An update matched
by no handler of the current state is ignored (state and form unchanged),
as `ConversationHandler` does. -/

/-- The string fields of `FormData`. -/
inductive FormField
  | category | template_id
  | first_name | last_name | address | city | postal_code | unit | phone
  | employer_name | salary | pay_period | province | hours | hourly_rate
  | bank_name | account_number | balance | transactions
  | company_name | amount | due_date | service_type
  | t4_employer_name | t4_employer_bn | employment_income | cpp_contribution
  | ei_premium | tax_deducted | tax_year | t4_province | other_income
  | letter_employer_name | letter_employer_address | job_title | start_date
  | letter_salary | employment_type | letter_purpose | end_date
deriving DecidableEq

/-- A session's form: field name to raw string value. -/
def Form : Type := FormField → String

/-- Write one field. -/
def upd (f : Form) (x : FormField) (v : String) : Form :=
  fun fld => if fld = x then v else f fld

/-- A fresh `FormData()`: every string field empty (as set by `start`). -/
def blankForm : Form := fun _ => ""

/-- The conversation states (`range(42)` in bot.py) plus the implicit end
state `CONV_END` (`ConversationHandler.END`). -/
inductive State
  | MAIN_MENU | SELECT_TEMPLATE
  | FORM_FIRST_NAME | FORM_LAST_NAME | FORM_ADDRESS | FORM_CITY
  | FORM_POSTAL_CODE | FORM_UNIT | FORM_PHONE
  | PAYROLL_EMPLOYER | PAYROLL_SALARY | PAYROLL_PERIOD | PAYROLL_PROVINCE
  | PAYROLL_HOURS | PAYROLL_RATE
  | BANK_NAME | BANK_ACCOUNT | BANK_BALANCE | BANK_TRANSACTIONS
  | BILL_COMPANY | BILL_AMOUNT | BILL_DUE_DATE | BILL_SERVICE
  | T4_EMPLOYER_NAME | T4_EMPLOYER_BN | T4_EMPLOYMENT_INCOME
  | T4_CPP_CONTRIBUTION | T4_EI_PREMIUM | T4_TAX_DEDUCTED | T4_YEAR
  | T4_PROVINCE | T4_OTHER_INCOME
  | LETTER_EMPLOYER_NAME | LETTER_EMPLOYER_ADDRESS | LETTER_JOB_TITLE
  | LETTER_START_DATE | LETTER_SALARY | LETTER_EMPLOYMENT_TYPE
  | LETTER_PURPOSE | LETTER_END_DATE
  | CONFIRM
  | CONV_END
deriving DecidableEq

/-- An incoming update: a text message or a callback query payload. -/
inductive Inp
  | msg (s : String)
  | cb (s : String)
deriving DecidableEq

/-- `filters.COMMAND`: the message text is a bot command. -/
def isCmd (s : String) : Bool := startsW "/" s

/-- The field written by the state's `MessageHandler`, if the state has
one.  Every registered text handler writes exactly one field
(`form.<field> = update.message.text.strip()`). -/
def msgTarget : State → Option FormField
  | .FORM_FIRST_NAME => some .first_name
  | .FORM_LAST_NAME => some .last_name
  | .FORM_ADDRESS => some .address
  | .FORM_CITY => some .city
  | .FORM_POSTAL_CODE => some .postal_code
  | .FORM_UNIT => some .unit
  | .FORM_PHONE => some .phone
  | .PAYROLL_EMPLOYER => some .employer_name
  | .PAYROLL_SALARY => some .salary
  | .PAYROLL_PERIOD => some .pay_period
  | .PAYROLL_PROVINCE => some .province
  | .BANK_NAME => some .bank_name
  | .BANK_ACCOUNT => some .account_number
  | .BANK_BALANCE => some .balance
  | .BILL_COMPANY => some .company_name
  | .BILL_SERVICE => some .service_type
  | .BILL_AMOUNT => some .amount
  | .BILL_DUE_DATE => some .due_date
  | .T4_EMPLOYER_NAME => some .t4_employer_name
  | .T4_EMPLOYER_BN => some .t4_employer_bn
  | .T4_YEAR => some .tax_year
  | .T4_PROVINCE => some .t4_province
  | .T4_EMPLOYMENT_INCOME => some .employment_income
  | .T4_CPP_CONTRIBUTION => some .cpp_contribution
  | .T4_EI_PREMIUM => some .ei_premium
  | .T4_TAX_DEDUCTED => some .tax_deducted
  | .LETTER_EMPLOYER_NAME => some .letter_employer_name
  | .LETTER_EMPLOYER_ADDRESS => some .letter_employer_address
  | .LETTER_JOB_TITLE => some .job_title
  | .LETTER_START_DATE => some .start_date
  | .LETTER_SALARY => some .letter_salary
  | .LETTER_EMPLOYMENT_TYPE => some .employment_type
  | .LETTER_END_DATE => some .end_date
  | .LETTER_PURPOSE => some .letter_purpose
  | _ => none

/-- `handle_phone`'s routing to the category-specific tier, read off the
updated form's `category`. -/
def afterPhone (f : Form) : State :=
  if f FormField.category = "payroll" then .PAYROLL_EMPLOYER
  else if f FormField.category = "bank" then .BANK_NAME
  else if f FormField.category = "bill" then .BILL_COMPANY
  else if f FormField.category = "t4" then .T4_EMPLOYER_NAME
  else if f FormField.category = "employment_letter" then .LETTER_EMPLOYER_NAME
  else .CONFIRM

/-- `handle_letter_employment_type`'s routing: termination letters collect
an end date first. -/
def afterEmpType (f : Form) : State :=
  if f FormField.template_id = "letter_termination" then .LETTER_END_DATE
  else .LETTER_PURPOSE

/-- The state reached after the state's text handler runs on the updated
form. -/
def msgNext : State → Form → State
  | .FORM_FIRST_NAME, _ => .FORM_LAST_NAME
  | .FORM_LAST_NAME, _ => .FORM_ADDRESS
  | .FORM_ADDRESS, _ => .FORM_CITY
  | .FORM_CITY, _ => .FORM_POSTAL_CODE
  | .FORM_POSTAL_CODE, _ => .FORM_UNIT
  | .FORM_UNIT, _ => .FORM_PHONE
  | .FORM_PHONE, f => afterPhone f
  | .PAYROLL_EMPLOYER, _ => .PAYROLL_SALARY
  | .PAYROLL_SALARY, _ => .PAYROLL_PERIOD
  | .PAYROLL_PERIOD, _ => .PAYROLL_PROVINCE
  | .PAYROLL_PROVINCE, _ => .CONFIRM
  | .BANK_NAME, _ => .BANK_ACCOUNT
  | .BANK_ACCOUNT, _ => .BANK_BALANCE
  | .BANK_BALANCE, _ => .CONFIRM
  | .BILL_COMPANY, _ => .BILL_SERVICE
  | .BILL_SERVICE, _ => .BILL_AMOUNT
  | .BILL_AMOUNT, _ => .BILL_DUE_DATE
  | .BILL_DUE_DATE, _ => .CONFIRM
  | .T4_EMPLOYER_NAME, _ => .T4_EMPLOYER_BN
  | .T4_EMPLOYER_BN, _ => .T4_YEAR
  | .T4_YEAR, _ => .T4_PROVINCE
  | .T4_PROVINCE, _ => .T4_EMPLOYMENT_INCOME
  | .T4_EMPLOYMENT_INCOME, _ => .T4_CPP_CONTRIBUTION
  | .T4_CPP_CONTRIBUTION, _ => .T4_EI_PREMIUM
  | .T4_EI_PREMIUM, _ => .T4_TAX_DEDUCTED
  | .T4_TAX_DEDUCTED, _ => .CONFIRM
  | .LETTER_EMPLOYER_NAME, _ => .LETTER_EMPLOYER_ADDRESS
  | .LETTER_EMPLOYER_ADDRESS, _ => .LETTER_JOB_TITLE
  | .LETTER_JOB_TITLE, _ => .LETTER_START_DATE
  | .LETTER_START_DATE, _ => .LETTER_SALARY
  | .LETTER_SALARY, _ => .LETTER_EMPLOYMENT_TYPE
  | .LETTER_EMPLOYMENT_TYPE, f => afterEmpType f
  | .LETTER_END_DATE, _ => .LETTER_PURPOSE
  | .LETTER_PURPOSE, _ => .CONFIRM
  | st, _ => st

/-- Processing of a non-command text message by the current state's
`MessageHandler` (no handler: the update is ignored). `t` is the already
stripped text. -/
def msgStep (st : State) (t : String) (f : Form) : State × Form :=
  match msgTarget st with
  | none => (st, f)
  | some x => (msgNext st (upd f x t), upd f x t)

/-- `handle_template`'s `data.split("_", 2)`: split the payload after
`TPL_` at its first underscore into category and template id. -/
def splitFirstUnderscore : List Char → Option (List Char × List Char)
  | [] => none
  | '_' :: r => some ([], r)
  | c :: r => (splitFirstUnderscore r).map fun p => (c :: p.1, p.2)

/-- `handle_template` on a `TPL_...` payload: fewer than three `_`-parts
leaves the state unchanged, else category and template id are written and
the common tier begins. -/
def tplStep (s : String) (f : Form) : State × Form :=
  match splitFirstUnderscore (s.toList.drop 4) with
  | none => (.SELECT_TEMPLATE, f)
  | some (cat, tpl) =>
    (.FORM_FIRST_NAME,
      upd (upd f .category (String.mk cat)) .template_id (String.mk tpl))

/-- Processing of a callback query by the current state's
`CallbackQueryHandler`s (pattern-matched payloads; anything else is
ignored).  `BACK_MAIN` re-runs `start`, which replaces the form with a
fresh `FormData`. -/
def cbStep (st : State) (s : String) (f : Form) : State × Form :=
  match st with
  | .MAIN_MENU =>
    if s = "BACK_MAIN" then (.MAIN_MENU, blankForm)
    else if s = "MY_DOCS" then (.MAIN_MENU, f)
    else if startsW "CAT_" s then
      (.SELECT_TEMPLATE, upd f .category (removeAll "CAT_" s))
    else (.MAIN_MENU, f)
  | .SELECT_TEMPLATE =>
    if s = "BACK_MAIN" then (.MAIN_MENU, blankForm)
    else if startsW "TPL_" s then tplStep s f
    else (.SELECT_TEMPLATE, f)
  | .FORM_UNIT =>
    if s = "SKIP" then (.FORM_PHONE, upd f .unit "") else (.FORM_UNIT, f)
  | .FORM_PHONE =>
    if s = "SKIP" then
      (afterPhone (upd f .phone ""), upd f .phone "")
    else (.FORM_PHONE, f)
  | .PAYROLL_PROVINCE =>
    if startsW "PROV_" s then
      (.CONFIRM, upd f .province (removeAll "PROV_" s))
    else (.PAYROLL_PROVINCE, f)
  | .T4_PROVINCE =>
    if startsW "PROV_" s then
      (.T4_EMPLOYMENT_INCOME, upd f .t4_province (removeAll "PROV_" s))
    else (.T4_PROVINCE, f)
  | .T4_CPP_CONTRIBUTION =>
    if s = "SKIP" then (.T4_EI_PREMIUM, upd f .cpp_contribution "")
    else (.T4_CPP_CONTRIBUTION, f)
  | .T4_EI_PREMIUM =>
    if s = "SKIP" then (.T4_TAX_DEDUCTED, upd f .ei_premium "")
    else (.T4_EI_PREMIUM, f)
  | .T4_TAX_DEDUCTED =>
    if s = "SKIP" then (.CONFIRM, upd f .tax_deducted "")
    else (.T4_TAX_DEDUCTED, f)
  | .LETTER_EMPLOYMENT_TYPE =>
    if startsW "EMPTYPE_" s then
      (afterEmpType (upd f .employment_type (removeAll "EMPTYPE_" s)),
        upd f .employment_type (removeAll "EMPTYPE_" s))
    else (.LETTER_EMPLOYMENT_TYPE, f)
  | .LETTER_PURPOSE =>
    if s = "SKIP" then (.CONFIRM, upd f .letter_purpose "")
    else (.LETTER_PURPOSE, f)
  | .CONFIRM =>
    if s = "CONFIRM_CANCEL" ∨ s = "CONFIRM_EDIT" ∨ s = "CONFIRM_YES" then
      (.CONV_END, f)
    else (.CONFIRM, f)
  | _ => (st, f)

/-- One transition of the conversation: dispatch the update to the current
state's handlers.  At `CONV_END` the conversation is over; `/start` (the
entry point) begins a fresh session, anything else is not handled.  In an
active state `/cancel` is the registered fallback; other commands match no
handler. -/
def step (st : State) (inp : Inp) (f : Form) : State × Form :=
  match inp with
  | .msg s =>
    if st = State.CONV_END then
      if s = "/start" then (.MAIN_MENU, blankForm) else (st, f)
    else if s = "/cancel" then (.CONV_END, f)
    else if isCmd s then (st, f)
    else msgStep st (pyStrip s) f
  | .cb s =>
    if st = State.CONV_END then (st, f) else cbStep st s f

/-- The fields a state's callback handlers may write. -/
def cbFields : State → List FormField
  | .MAIN_MENU => [.category]
  | .SELECT_TEMPLATE => [.category, .template_id]
  | .FORM_UNIT => [.unit]
  | .FORM_PHONE => [.phone]
  | .PAYROLL_PROVINCE => [.province]
  | .T4_PROVINCE => [.t4_province]
  | .T4_CPP_CONTRIBUTION => [.cpp_contribution]
  | .T4_EI_PREMIUM => [.ei_premium]
  | .T4_TAX_DEDUCTED => [.tax_deducted]
  | .LETTER_EMPLOYMENT_TYPE => [.employment_type]
  | .LETTER_PURPOSE => [.letter_purpose]
  | _ => []

/-- The fields belonging to a state's node: what its registered handlers
write. -/
def fieldsOf (st : State) : List FormField :=
  (msgTarget st).toList ++ cbFields st

/-- Whether some handler registered for the state matches the update
(`ConversationHandler` routing: `MessageHandler(filters.TEXT &
~filters.COMMAND)` and the per-state anchored callback patterns). -/
def accepted : State → Inp → Bool
  | st, .msg s => (msgTarget st).isSome && !(isCmd s)
  | st, .cb s =>
    match st with
    | .MAIN_MENU => startsW "CAT_" s || startsW "MY_DOCS" s || startsW "BACK_MAIN" s
    | .SELECT_TEMPLATE => startsW "TPL_" s || startsW "BACK_MAIN" s
    | .FORM_UNIT => s = "SKIP"
    | .FORM_PHONE => s = "SKIP"
    | .PAYROLL_PROVINCE => startsW "PROV_" s
    | .T4_PROVINCE => startsW "PROV_" s
    | .T4_CPP_CONTRIBUTION => s = "SKIP"
    | .T4_EI_PREMIUM => s = "SKIP"
    | .T4_TAX_DEDUCTED => s = "SKIP"
    | .LETTER_EMPLOYMENT_TYPE => startsW "EMPTYPE_" s
    | .LETTER_PURPOSE => s = "SKIP"
    | .CONFIRM => startsW "CONFIRM_" s
    | _ => false

/-- An answer input, as opposed to a global command or the restart
navigation button: a non-command text message, or a callback other than
`BACK_MAIN` (the spec's explicit restart edge, which discards the
session). -/
def goodInput : Inp → Prop
  | .msg s => isCmd s = false
  | .cb s => s ≠ "BACK_MAIN"

/-! ### Helper lemmas -/

theorem upd_ne (f : Form) (x : FormField) (v : String) {fld : FormField}
    (h : fld ≠ x) : upd f x v fld = f fld := by
  simp [upd, h]

theorem round2_zero : round2 0 = 0 := by
  simp [round2]

theorem round2_isCent (x : ℚ) : IsCent (round2 x) :=
  ⟨round (100 * x), rfl⟩

theorem IsCent.sub {a b : ℚ} (ha : IsCent a) (hb : IsCent b) :
    IsCent (a - b) := by
  obtain ⟨m, rfl⟩ := ha
  obtain ⟨n, rfl⟩ := hb
  exact ⟨m - n, by push_cast; ring⟩

theorem round2_eq_self {q : ℚ} (h : IsCent q) : round2 q = q := by
  obtain ⟨n, rfl⟩ := h
  unfold round2
  rw [show (100 : ℚ) * ((n : ℚ) / 100) = ((n : ℤ) : ℚ) by ring,
    round_intCast]

theorem round2_intCast (m : ℤ) : round2 ((m : ℚ)) = (m : ℚ) := by
  unfold round2
  rw [show (100 : ℚ) * ((m : ℚ)) = ((100 * m : ℤ) : ℚ) by push_cast; ring,
    round_intCast]
  push_cast
  ring

theorem freqMultiplier_pos (f : String) : 0 < freqMultiplier f := by
  unfold freqMultiplier
  split_ifs <;> norm_num

/-- Boundary tie-break of the spec's bracket walk: an income exactly at a
finite bracket boundary is taxed entirely at the lower bracket's rate. -/
theorem bracket_boundary_lower (L r1 r2 : ℚ) (hL : 0 < L) :
    computeBracketTax L [(some L, r1), (none, r2)] 0 = L * r1 := by
  simp [computeBracketTax, not_le.mpr hL, min_self]

/-- The payroll EI and CPP deductions exceed any bound at some gross:
there is no cap in the code. -/
theorem eiCppExceeds (B : ℚ) :
    ∃ g : ℚ, 0 ≤ g ∧ B < payrollEi g ∧ B < payrollCpp g := by
  obtain ⟨n, hn⟩ := exists_nat_gt B
  have h0 : (0 : ℚ) ≤ (n : ℚ) := Nat.cast_nonneg n
  refine ⟨10000 * ((n : ℚ) + 1), by positivity, ?_, ?_⟩
  · have e : (10000 * ((n : ℚ) + 1)) * (163 / 10000)
        = ((163 * ((n : ℤ) + 1) : ℤ) : ℚ) := by push_cast; ring
    unfold payrollEi
    rw [e, round2_intCast]
    push_cast
    nlinarith
  · have e : (10000 * ((n : ℚ) + 1)) * (595 / 10000)
        = ((595 * ((n : ℤ) + 1) : ℤ) : ℚ) := by push_cast; ring
    unfold payrollCpp
    rw [e, round2_intCast]
    push_cast
    nlinarith

/-- A text message answer only touches the field of the current state's
message handler. -/
theorem msgStep_preserves (st : State) (t : String) (f : Form)
    (fld : FormField) (h : fld ∉ fieldsOf st) :
    (msgStep st t f).2 fld = f fld := by
  unfold msgStep
  cases hm : msgTarget st with
  | none => rfl
  | some x =>
    have hx : fld ≠ x := by
      intro he
      subst he
      exact h (by simp [fieldsOf, hm])
    simp [upd_ne f x t hx]

theorem notMem_cbFields (st : State) (fld : FormField)
    (h : fld ∉ fieldsOf st) : fld ∉ cbFields st :=
  fun hin => h (List.mem_append_right _ hin)

/-- A callback answer (other than the `BACK_MAIN` restart) only touches
fields of the current state's callback handlers. -/
theorem cbStep_preserves (st : State) (s : String) (f : Form)
    (fld : FormField) (hs : s ≠ "BACK_MAIN") (h : fld ∉ fieldsOf st) :
    (cbStep st s f).2 fld = f fld := by
  have h2 := notMem_cbFields st fld h
  cases st
  case MAIN_MENU =>
    simp only [cbFields, List.mem_singleton] at h2
    simp only [cbStep]
    rw [if_neg hs]
    split_ifs <;> first | rfl | exact upd_ne f _ _ h2
  case SELECT_TEMPLATE =>
    simp only [cbFields, List.mem_cons, List.not_mem_nil, or_false, not_or] at h2
    obtain ⟨hc, ht⟩ := h2
    simp only [cbStep]
    rw [if_neg hs]
    split_ifs
    · unfold tplStep
      cases hsp : splitFirstUnderscore (s.toList.drop 4) with
      | none => rfl
      | some p =>
        simp only
        rw [upd_ne _ _ _ ht, upd_ne _ _ _ hc]
    · rfl
  case FORM_UNIT =>
    simp only [cbFields, List.mem_singleton] at h2
    simp only [cbStep]
    split_ifs <;> first | rfl | exact upd_ne f _ _ h2
  case FORM_PHONE =>
    simp only [cbFields, List.mem_singleton] at h2
    simp only [cbStep]
    split_ifs <;> first | rfl | exact upd_ne f _ _ h2
  case PAYROLL_PROVINCE =>
    simp only [cbFields, List.mem_singleton] at h2
    simp only [cbStep]
    split_ifs <;> first | rfl | exact upd_ne f _ _ h2
  case T4_PROVINCE =>
    simp only [cbFields, List.mem_singleton] at h2
    simp only [cbStep]
    split_ifs <;> first | rfl | exact upd_ne f _ _ h2
  case T4_CPP_CONTRIBUTION =>
    simp only [cbFields, List.mem_singleton] at h2
    simp only [cbStep]
    split_ifs <;> first | rfl | exact upd_ne f _ _ h2
  case T4_EI_PREMIUM =>
    simp only [cbFields, List.mem_singleton] at h2
    simp only [cbStep]
    split_ifs <;> first | rfl | exact upd_ne f _ _ h2
  case T4_TAX_DEDUCTED =>
    simp only [cbFields, List.mem_singleton] at h2
    simp only [cbStep]
    split_ifs <;> first | rfl | exact upd_ne f _ _ h2
  case LETTER_EMPLOYMENT_TYPE =>
    simp only [cbFields, List.mem_singleton] at h2
    simp only [cbStep]
    split_ifs <;> first | rfl | exact upd_ne f _ _ h2
  case LETTER_PURPOSE =>
    simp only [cbFields, List.mem_singleton] at h2
    simp only [cbStep]
    split_ifs <;> first | rfl | exact upd_ne f _ _ h2
  case CONFIRM =>
    simp only [cbStep]
    split_ifs <;> rfl
  all_goals rfl

/-- A transition on an answer input never writes a field outside the
current state's node. -/
theorem step_preserves (st : State) (inp : Inp) (f : Form)
    (fld : FormField) (hg : goodInput inp) (h : fld ∉ fieldsOf st) :
    (step st inp f).2 fld = f fld := by
  cases inp with
  | msg s =>
    have hcmd : isCmd s = false := hg
    have hstart : s ≠ "/start" := by
      intro he
      subst he
      exact absurd hcmd (by decide)
    have hcancel : s ≠ "/cancel" := by
      intro he
      subst he
      exact absurd hcmd (by decide)
    by_cases hE : st = State.CONV_END
    · subst hE
      simp [step, hstart]
    · simp only [step, if_neg hE, if_neg hcancel]
      rw [if_neg (by simp [hcmd])]
      exact msgStep_preserves st (pyStrip s) f fld h
  | cb s =>
    by_cases hE : st = State.CONV_END
    · subst hE
      simp [step]
    · simp only [step, if_neg hE]
      exact cbStep_preserves st s f fld hg h

/-- A callback query matched by no callback pattern of the current state
is ignored. -/
theorem cbStep_ignored (st : State) (s : String) (f : Form)
    (hg : s ≠ "BACK_MAIN") (h : accepted st (Inp.cb s) = false) :
    cbStep st s f = (st, f) := by
  cases st
  case MAIN_MENU =>
    simp only [accepted, Bool.or_eq_false_iff] at h
    obtain ⟨⟨hcat, hdocs⟩, hback⟩ := h
    simp only [cbStep]
    rw [if_neg hg]
    split_ifs with h1 h2
    · rfl
    · exact absurd h2 (by simp [hcat])
    · rfl
  case SELECT_TEMPLATE =>
    simp only [accepted, Bool.or_eq_false_iff] at h
    obtain ⟨htpl, hback⟩ := h
    simp only [cbStep]
    rw [if_neg hg]
    split_ifs with h1
    · exact absurd h1 (by simp [htpl])
    · rfl
  case FORM_UNIT =>
    simp only [accepted, decide_eq_false_iff_not] at h
    simp only [cbStep]
    rw [if_neg h]
  case FORM_PHONE =>
    simp only [accepted, decide_eq_false_iff_not] at h
    simp only [cbStep]
    rw [if_neg h]
  case PAYROLL_PROVINCE =>
    simp only [accepted] at h
    simp only [cbStep]
    rw [if_neg (by simp [h])]
  case T4_PROVINCE =>
    simp only [accepted] at h
    simp only [cbStep]
    rw [if_neg (by simp [h])]
  case T4_CPP_CONTRIBUTION =>
    simp only [accepted, decide_eq_false_iff_not] at h
    simp only [cbStep]
    rw [if_neg h]
  case T4_EI_PREMIUM =>
    simp only [accepted, decide_eq_false_iff_not] at h
    simp only [cbStep]
    rw [if_neg h]
  case T4_TAX_DEDUCTED =>
    simp only [accepted, decide_eq_false_iff_not] at h
    simp only [cbStep]
    rw [if_neg h]
  case LETTER_EMPLOYMENT_TYPE =>
    simp only [accepted] at h
    simp only [cbStep]
    rw [if_neg (by simp [h])]
  case LETTER_PURPOSE =>
    simp only [accepted, decide_eq_false_iff_not] at h
    simp only [cbStep]
    rw [if_neg h]
  case CONFIRM =>
    simp only [accepted] at h
    have h1 : s ≠ "CONFIRM_CANCEL" := by
      intro he
      subst he
      exact absurd h (by decide)
    have h2 : s ≠ "CONFIRM_EDIT" := by
      intro he
      subst he
      exact absurd h (by decide)
    have h3 : s ≠ "CONFIRM_YES" := by
      intro he
      subst he
      exact absurd h (by decide)
    simp only [cbStep]
    rw [if_neg (by simp [h1, h2, h3])]
  all_goals rfl


/-- An update matched by no handler of the current state is ignored. -/
theorem step_ignored (st : State) (inp : Inp) (f : Form)
    (hg : goodInput inp) (h : accepted st inp = false) :
    step st inp f = (st, f) := by
  cases inp with
  | msg s =>
    have hcmd : isCmd s = false := hg
    have hstart : s ≠ "/start" := by
      intro he
      subst he
      exact absurd hcmd (by decide)
    have hcancel : s ≠ "/cancel" := by
      intro he
      subst he
      exact absurd hcmd (by decide)
    by_cases hE : st = State.CONV_END
    · subst hE
      simp [step, hstart]
    · have hmt : msgTarget st = none := by
        cases hx : msgTarget st with
        | none => rfl
        | some y =>
          exfalso
          simp [accepted, hx, hcmd] at h
      simp only [step, if_neg hE, if_neg hcancel]
      rw [if_neg (by simp [hcmd])]
      unfold msgStep
      rw [hmt]
  | cb s =>
    by_cases hE : st = State.CONV_END
    · subst hE
      simp [step]
    · simp only [step, if_neg hE]
      exact cbStep_ignored st s f hg h
/-! ### Claims -/

/-- C1 (counterexample): the claim states that the income-tax deduction
shown on a payroll document is computed by the progressive bracket walk
over the jurisdiction's bracket table.  The repository contains no bracket
table — the spec itself treats the rate tables as swappable configuration —
and the code's tax is the hard-coded flat `round(gross * 0.15, 2)`,
independent of any table and of the selected province.  Under the
well-formed two-bracket configuration `demoBrackets` (0% to 100, 100%
above) and gross 200, the bracket walk yields 100 while the code shows 30,
so the shown deduction is not the bracket-walk result for every configured
table. -/
theorem C1_bracket_counterexample :
    ¬ ∀ bs : List (Option ℚ × ℚ), wellFormedTable bs = true →
        ∀ g : ℚ, 0 ≤ g → payrollTax g = round2 (computeBracketTax g bs 0) := by
  intro h
  have h2 := h demoBrackets (by decide) 200 (by norm_num)
  rw [show payrollTax 200 = 30 from by rw [payrollTax, round2, round_eq]; norm_num,
    show round2 (computeBracketTax 200 demoBrackets 0) = 100 from by
      norm_num [computeBracketTax, demoBrackets, min_def, round2, round_eq]] at h2
  norm_num at h2

/-- C1 (amended): the income-tax deduction on a payroll document equals
`round2 (gross * 0.15)` applied directly to the per-period gross — a flat
rate with no jurisdiction-keyed table and no multi-bracket walk;
equivalently, it coincides with the spec's bracket algorithm only in the
degenerate configuration of a single unbounded 15% bracket
(`flatTable`). -/
theorem C1_flat_rate_amended (g : ℚ) (hg : 0 ≤ g) :
    payrollTax g = round2 (computeBracketTax g flatTable 0) := by
  rcases eq_or_lt_of_le hg with h | h
  · rw [← h]
    norm_num [payrollTax, flatTable, computeBracketTax, round2, round_eq]
  · have hne : ¬ g ≤ (0 : ℚ) := not_le.mpr h
    simp only [flatTable, computeBracketTax, if_neg hne]
    unfold payrollTax
    congr 1
    ring

/-- C1 witness: the amended claim at gross 2000. -/
theorem C1_flat_rate_amended_witness :
    0 ≤ (2000 : ℚ) ∧
      payrollTax 2000 = round2 (computeBracketTax 2000 flatTable 0) :=
  ⟨by norm_num, C1_flat_rate_amended 2000 (by norm_num)⟩

/-- C2 (counterexample): the claim states that net pay is the gross minus
four distinct deductions, with federal and regional tax computed
separately.  The generated payroll document carries exactly three
deduction rows (CPP, EI, and a single undivided income-tax line), not
four. -/
theorem C2_deduction_count_counterexample :
    (dedRows (payrollElems "2000" "Acme" "2025-01-01 to 2025-01-15" "ON"
      "Ana" "Li" "1 Main St" "" "Metropolis" "A1A 1A1" "555-0100"
      "2025-01-01 12:00")).length = 3 ∧ (3 : ℕ) ≠ 4 := by
  exact ⟨rfl, by decide⟩

/-- C2 (amended): net pay for the period equals the per-period gross minus
the three per-period deductions the code computes — CPP, EI and the single
income tax — exactly (for any gross that is a whole number of cents the
final rounding is the identity); there is no federal/regional split. -/
theorem C2_net_identity_amended (g : ℚ) (hg : IsCent g) :
    payrollNet g = g - payrollCpp g - payrollEi g - payrollTax g := by
  have h1 : IsCent (g - payrollCpp g - payrollEi g - payrollTax g) :=
    ((hg.sub (round2_isCent _)).sub (round2_isCent _)).sub (round2_isCent _)
  unfold payrollNet
  exact round2_eq_self h1

/-- C2 witness: the amended claim at gross 2000
(net 1548.40 = 2000 − 119 − 32.60 − 300). -/
theorem C2_net_identity_amended_witness :
    IsCent (2000 : ℚ) ∧
      payrollNet 2000 = 2000 - payrollCpp 2000 - payrollEi 2000 - payrollTax 2000 :=
  ⟨⟨200000, by norm_num⟩, C2_net_identity_amended 2000 ⟨200000, by norm_num⟩⟩

/-- C3 (counterexample): the claim states that the per-period gross is
annualized by the frequency multiplier before any bracket math and that
all tax is computed on the annualized figure.  The code never annualizes
and reads no frequency (the collected `pay_period` is a free-text date
range unused by the numeric path): under the configured table
`demoBrackets`, frequency `weekly` and gross 50, the
annualize/bracket/de-annualize pipeline yields 48.08 while the code shows
7.50. -/
theorem C3_annualization_counterexample :
    ¬ ∀ bs : List (Option ℚ × ℚ), wellFormedTable bs = true →
        ∀ (f : String) (g : ℚ), 0 ≤ g →
          payrollTax g
            = round2 (deannualize (computeBracketTax (annualize g f) bs 0) f) := by
  intro h
  have h2 := h demoBrackets (by decide) "weekly" 50 (by norm_num)
  rw [show payrollTax 50 = 15 / 2 from by rw [payrollTax, round2, round_eq]; norm_num,
    show round2 (deannualize
      (computeBracketTax (annualize 50 "weekly") demoBrackets 0) "weekly")
      = 1202 / 25 from by
      norm_num [annualize, freqMultiplier, computeBracketTax, demoBrackets,
        min_def, deannualize, round2, round_eq]] at h2
  norm_num at h2

/-- C3 (amended): the code performs no annualization — every deduction is
a function of the per-period gross alone — and the spec-modelled
`annualize`/`deannualize` (weekly ×52, biweekly ×26, monthly ×12,
unrecognized frequency ×26) satisfy the exact round-trip law; composing
annualization with a flat 15% annual rate and de-annualization collapses
to the code's per-period computation for every frequency string. -/
theorem C3_roundtrip_amended (g : ℚ) (f : String) :
    deannualize (annualize g f) f = g ∧
      payrollTax g = round2 (deannualize (annualize g f * (15 / 100)) f) := by
  have hm : freqMultiplier f ≠ 0 := ne_of_gt (freqMultiplier_pos f)
  constructor
  · unfold annualize deannualize
    field_simp
  · unfold annualize deannualize payrollTax
    congr 1
    field_simp
    ring

/-- C4 (counterexample): the claim states that the EI deduction is
`min(annualGross * eiRate, eiAnnualCap)` and the pension (CPP) deduction
is capped by `pensionAnnualCap`, so both never exceed their caps.  The
code computes `round(gross * 0.0163, 2)` and `round(gross * 0.0595, 2)`
with no cap: no pair of finite caps bounds them over all grosses. -/
theorem C4_cap_counterexample :
    ¬ ∃ eiCap cppCap : ℚ, ∀ g : ℚ, 0 ≤ g →
        payrollEi g ≤ eiCap ∧ payrollCpp g ≤ cppCap := by
  rintro ⟨cE, cC, h⟩
  obtain ⟨g, hg0, hE, hC⟩ := eiCppExceeds (max cE cC)
  have h2 := h g hg0
  exact absurd h2.1 (not_le.mpr (lt_of_le_of_lt (le_max_left cE cC) hE))

/-- C4 (amended): the EI and CPP deductions are uncapped flat percentages
of the per-period gross (`round2 (g * 0.0163)` and `round2 (g * 0.0595)`,
with no exemption threshold): they exceed any fixed bound at some
sufficiently large gross. -/
theorem C4_uncapped_amended (B : ℚ) :
    ∃ g : ℚ, 0 ≤ g ∧ B < payrollEi g ∧ B < payrollCpp g :=
  eiCppExceeds B

/-- C5 (counterexample): the claim states that a currency-amount answer
failing to parse as a decimal number is rejected with the state and fields
unchanged.  At the bill-amount node the answer `"abc"` — which fails the
numeric parse — is stored verbatim into the `amount` field and the machine
advances to the due-date node. -/
theorem C5_accepts_abc_counterexample :
    pyFloat (normalizeAmount "abc") = none ∧
      (step .BILL_AMOUNT (.msg "abc") blankForm).1 = .BILL_DUE_DATE ∧
      State.BILL_DUE_DATE ≠ State.BILL_AMOUNT ∧
      (step .BILL_AMOUNT (.msg "abc") blankForm).2 FormField.amount = "abc" :=
  ⟨rfl, rfl, by decide, rfl⟩

/-- C5 (amended): the currency-amount nodes perform no validation at all:
any non-command text answer is stripped, stored verbatim as a string into
the node's field, and the state advances — for the bill amount, the
payroll salary and the bank balance alike. -/
theorem C5_no_validation_amended (s : String) (f : Form)
    (h : isCmd s = false) :
    step .BILL_AMOUNT (.msg s) f
        = (.BILL_DUE_DATE, upd f .amount (pyStrip s)) ∧
      step .PAYROLL_SALARY (.msg s) f
        = (.PAYROLL_PERIOD, upd f .salary (pyStrip s)) ∧
      step .BANK_BALANCE (.msg s) f
        = (.CONFIRM, upd f .balance (pyStrip s)) := by
  have hcancel : s ≠ "/cancel" := by
    intro he
    subst he
    exact absurd h (by decide)
  refine ⟨?_, ?_, ?_⟩ <;>
    · simp only [step]
      rw [if_neg (by decide), if_neg hcancel, if_neg (by simp [h])]
      rfl

/-- C5 witness: the amended claim at the subsequent valid amount
`"150.50"`, accepted and stored as the string `"150.50"`. -/
theorem C5_no_validation_amended_witness :
    step .BILL_AMOUNT (.msg "150.50") blankForm
        = (.BILL_DUE_DATE, upd blankForm .amount "150.50") ∧
      step .PAYROLL_SALARY (.msg "150.50") blankForm
        = (.PAYROLL_PERIOD, upd blankForm .salary "150.50") ∧
      step .BANK_BALANCE (.msg "150.50") blankForm
        = (.CONFIRM, upd blankForm .balance "150.50") :=
  C5_no_validation_amended "150.50" blankForm rfl

/-- C6 (counterexample): the claim states that a required free-text answer
whose trimmed value is empty is rejected with the session unchanged and
the state re-entered.  At the first-name node a whitespace-only answer
trims to the empty string, yet it is stored (overwriting the field) and
the machine advances to the last-name node. -/
theorem C6_empty_advances_counterexample :
    pyStrip "   " = "" ∧
      (step .FORM_FIRST_NAME (.msg "   ")
        (upd blankForm .first_name "Old")).1 = .FORM_LAST_NAME ∧
      State.FORM_LAST_NAME ≠ State.FORM_FIRST_NAME ∧
      (step .FORM_FIRST_NAME (.msg "   ")
        (upd blankForm .first_name "Old")).2 FormField.first_name = "" :=
  ⟨rfl, rfl, by decide, rfl⟩

/-- C6 (amended): every free-text node — the required common-tier fields
(first name, last name, address, city, postal code) and the
category-specific text fields alike, i.e. every state with a registered
`MessageHandler` — accepts any non-command text answer, including one
whose trimmed value is the empty string: the trimmed value is stored
unconditionally into the node's field and the state always advances (the
node is never re-entered). -/
theorem C6_accepts_empty_amended (st : State) (x : FormField) (s : String)
    (f : Form) (hst : msgTarget st = some x) (h : isCmd s = false) :
    step st (.msg s) f
        = (msgNext st (upd f x (pyStrip s)), upd f x (pyStrip s)) ∧
      msgNext st (upd f x (pyStrip s)) ≠ st := by
  have hE : st ≠ State.CONV_END := by
    intro he
    subst he
    simp [msgTarget] at hst
  have hcancel : s ≠ "/cancel" := by
    intro he
    subst he
    exact absurd h (by decide)
  constructor
  · simp only [step]
    rw [if_neg hE, if_neg hcancel, if_neg (by simp [h])]
    unfold msgStep
    rw [hst]
  · cases st <;>
      first
      | (simp [msgTarget] at hst; done)
      | (simp only [msgNext, afterPhone, afterEmpType]
         first
         | decide
         | (split_ifs <;> decide))

/-- C6 witness: the amended claim at the city node with the answer
`"Laval"`: stored trimmed, state advances to the postal-code node. -/
theorem C6_accepts_empty_amended_witness :
    step .FORM_CITY (.msg "Laval") blankForm
        = (.FORM_POSTAL_CODE, upd blankForm .city "Laval") ∧
      State.FORM_POSTAL_CODE ≠ State.FORM_CITY :=
  C6_accepts_empty_amended .FORM_CITY .city "Laval" blankForm rfl rfl

/-- C7: for every reachable session state and every answer input (a
non-command text message or a callback other than the `BACK_MAIN` restart
edge), processing never writes a field belonging to a node other than the
session's current state, and an update matched by no handler of the
current state — e.g. a stale callback for a state the session is no longer
in — is ignored, leaving state and fields unchanged. -/
theorem C7_state_isolation (st : State) (inp : Inp) (f : Form)
    (fld : FormField) (hg : goodInput inp) :
    (fld ∉ fieldsOf st → (step st inp f).2 fld = f fld) ∧
      (accepted st inp = false → step st inp f = (st, f)) :=
  ⟨fun h => step_preserves st inp f fld hg h,
    fun h => step_ignored st inp f hg h⟩

/-- C7 witness: a stale `SKIP` callback arriving at the bill due-date node
is ignored and, in particular, the `amount` field of another node is
untouched. -/
theorem C7_state_isolation_witness :
    (step .BILL_DUE_DATE (.cb "SKIP") blankForm).2 FormField.amount
        = blankForm FormField.amount ∧
      step .BILL_DUE_DATE (.cb "SKIP") blankForm = (.BILL_DUE_DATE, blankForm) :=
  ⟨(C7_state_isolation .BILL_DUE_DATE (.cb "SKIP") blankForm
      FormField.amount (by simp [goodInput])).1 (by decide),
    (C7_state_isolation .BILL_DUE_DATE (.cb "SKIP") blankForm
      FormField.amount (by simp [goodInput])).2 rfl⟩

/-- C8 (counterexample): the claim states that the restart/edit outcome at
the CONFIRM node transitions back to MAIN_MENU, discarding all collected
fields.  Choosing `CONFIRM_EDIT` ends the conversation (the implicit end
state, not MAIN_MENU) and the collected fields are retained, not
discarded. -/
theorem C8_edit_counterexample :
    (step .CONFIRM (.cb "CONFIRM_EDIT")
        (upd blankForm .first_name "Ana")).1 = .CONV_END ∧
      State.CONV_END ≠ State.MAIN_MENU ∧
      (step .CONFIRM (.cb "CONFIRM_EDIT")
        (upd blankForm .first_name "Ana")).2 FormField.first_name = "Ana" ∧
      "Ana" ≠ "" :=
  ⟨rfl, by decide, rfl, by decide⟩

/-- C8 (amended): at the CONFIRM node the edit outcome (`CONFIRM_EDIT`)
transitions to the implicit end state with the collected fields left in
place; the user is told to issue `/start`, which is what later resets the
form. -/
theorem C8_edit_ends_amended (f : Form) :
    step .CONFIRM (.cb "CONFIRM_EDIT") f = (.CONV_END, f) := rfl

/-- C9: the payroll computation is deterministic and time-independent: the
money figures of the generated payroll document are a pure function of the
stored salary string alone — the generation timestamp enters only the
footer paragraph, never the computed figures. -/
theorem C9_time_independence (salary employer payPeriod province firstName
    lastName address unit city postalCode phone t1 t2 : String) :
    figuresList (payrollElems salary employer payPeriod province firstName
        lastName address unit city postalCode phone t1)
      = figuresList (payrollElems salary employer payPeriod province
        firstName lastName address unit city postalCode phone t2) ∧
    figuresList (payrollElems salary employer payPeriod province firstName
        lastName address unit city postalCode phone t1)
      = [parseAmount salary, payrollCpp (parseAmount salary),
        payrollEi (parseAmount salary), payrollTax (parseAmount salary),
        payrollNet (parseAmount salary)] :=
  ⟨rfl, rfl⟩

/-- C10: document generation is total over the stored numeric strings: a
string `s` that fails the float parse (after stripping commas and dollar
signs) is silently treated as 0 and every generator proceeds — the payroll
figures, the bill figures, the bank balance; and in the T4 generator,
whichever of the four slots (income, CPP, EI, tax deducted) holds the
failing string, that slot's box amount is 0 (with a failing income the
shared exception handler zeroes all four boxes at once). -/
theorem C10_parse_fallback (s : String)
    (h : pyFloat (normalizeAmount s) = none) :
    parseAmount s = 0 ∧
      payrollFigures s = (0, 0, 0, 0, 0) ∧
      billFigures s = (0, 0, 0) ∧
      bankBalanceShown s = 0 ∧
      (∀ cpp ei tax : String, t4Amounts s cpp ei tax = (0, 0, 0, 0)) ∧
      (∀ inc ei tax : String, (t4Amounts inc s ei tax).2.1 = 0) ∧
      (∀ inc cpp tax : String, (t4Amounts inc cpp s tax).2.2.1 = 0) ∧
      (∀ inc cpp ei : String, (t4Amounts inc cpp ei s).2.2.2 = 0) := by
  have hp : parseAmount s = 0 := by
    unfold parseAmount
    rw [h]
    rfl
  have hc : payrollCpp 0 = 0 := by simp [payrollCpp, round2_zero]
  have he : payrollEi 0 = 0 := by simp [payrollEi, round2_zero]
  have ht : payrollTax 0 = 0 := by simp [payrollTax, round2_zero]
  refine ⟨hp, ?_, ?_, hp, ?_, ?_, ?_, ?_⟩
  · unfold payrollFigures
    rw [hp]
    simp [hc, he, ht, payrollNet, round2_zero]
  · unfold billFigures
    rw [hp]
    simp [billTax, billTotal, round2_zero]
  · intro cpp ei tax
    unfold t4Amounts
    rw [h]
  · intro inc ei tax
    unfold t4Amounts
    cases pyFloat (normalizeAmount inc) with
    | none => rfl
    | some i =>
      by_cases hs : s = ""
      · subst hs
        rw [if_pos (rfl : ("" : String) = "")]
        cases (if ei = "" then some 0 else pyFloat (normalizeAmount ei)) with
        | none => rfl
        | some e =>
          cases (if tax = "" then some 0 else pyFloat (normalizeAmount tax)) with
          | none => rfl
          | some t => rfl
      · rw [if_neg hs, h]
  · intro inc cpp tax
    unfold t4Amounts
    cases pyFloat (normalizeAmount inc) with
    | none => rfl
    | some i =>
      cases (if cpp = "" then some 0 else pyFloat (normalizeAmount cpp)) with
      | none => rfl
      | some c =>
        by_cases hs : s = ""
        · subst hs
          rw [if_pos (rfl : ("" : String) = "")]
          cases (if tax = "" then some 0 else pyFloat (normalizeAmount tax)) with
          | none => rfl
          | some t => rfl
        · rw [if_neg hs, h]
  · intro inc cpp ei
    unfold t4Amounts
    cases pyFloat (normalizeAmount inc) with
    | none => rfl
    | some i =>
      cases (if cpp = "" then some 0 else pyFloat (normalizeAmount cpp)) with
      | none => rfl
      | some c =>
        cases (if ei = "" then some 0 else pyFloat (normalizeAmount ei)) with
        | none => rfl
        | some e =>
          by_cases hs : s = ""
          · subst hs
            rw [if_pos (rfl : ("" : String) = "")]
          · rw [if_neg hs, h]

/-- C10 witness: the unparseable string `"abc"` yields 0 everywhere and
generation proceeds — also when it sits in the T4 CPP, EI or tax-deducted
slot with a parseable income string. -/
theorem C10_parse_fallback_witness :
    parseAmount "abc" = 0 ∧
      payrollFigures "abc" = (0, 0, 0, 0, 0) ∧
      billFigures "abc" = (0, 0, 0) ∧
      bankBalanceShown "abc" = 0 ∧
      t4Amounts "abc" "1" "2" "3" = (0, 0, 0, 0) ∧
      (t4Amounts "100" "abc" "2" "3").2.1 = 0 ∧
      (t4Amounts "100" "1" "abc" "3").2.2.1 = 0 ∧
      (t4Amounts "100" "1" "2" "abc").2.2.2 = 0 := by
  have hh := C10_parse_fallback "abc" rfl
  exact ⟨hh.1, hh.2.1, hh.2.2.1, hh.2.2.2.1, hh.2.2.2.2.1 "1" "2" "3",
    hh.2.2.2.2.2.1 "100" "2" "3", hh.2.2.2.2.2.2.1 "100" "1" "3",
    hh.2.2.2.2.2.2.2 "100" "1" "2"⟩
